import Mathlib

/-!
Shallow embedding of the metadata-quality scoring engine
(`src/api/validators.py` together with the configuration constants of
`src/api/config.py`) of the metadata-quality-stack repository, and proofs
about it.

Conventions of the embedding:
* an RDF graph is a list of triples (subject, predicate, object); in rdflib
  a graph is a set of triples, every theorem below is stated for arbitrary
  triple lists;
* machine floats (`percentage`, `points`) are modelled exactly as rationals;
* external effects (HTTP probing, file system, the pyshacl engine, loaded
  CSV vocabularies) are modelled by an explicit environment record;
* a checker that may raise inside `calculate_metrics` is modelled as a
  function into `Except Unit (Nat × Nat)`.
-/

namespace MQS

/-- The five quality dimensions of `models.DimensionType`. -/
inductive Dimension
  | findability
  | accessibility
  | interoperability
  | reusability
  | contextuality
deriving DecidableEq, Repr

/-- The ratings of `models.Rating`. -/
inductive Rating
  | excellent
  | good
  | sufficient
  | bad
deriving DecidableEq, Repr

/-- An RDF node: URI reference, blank node, or literal (rdflib terms). -/
inductive Node
  | uri (s : String)
  | bnode (s : String)
  | lit (s : String)
deriving DecidableEq, Repr

/-- Python `str()` applied to an rdflib term: its lexical payload. -/
def Node.asString : Node → String
  | .uri s => s
  | .bnode s => s
  | .lit s => s

/-- One RDF triple (subject, predicate, object); predicates are URI strings. -/
abbrev Triple := Node × String × Node

/-- A parsed RDF graph, as the collection of its triples. -/
abbrev Graph := List Triple

def rdfType : String := "rdf:type"

def dcatDataset : Node := .uri "dcat:Dataset"

def dcatDistribution : Node := .uri "dcat:Distribution"

/-- Model of `g.subjects(p, o)` of rdflib: subjects of all triples matching the
predicate and the object.  Since an rdflib graph is a set of triples the
subjects produced for a fixed `(p, o)` are pairwise distinct. -/
def subjectsWith (g : Graph) (p : String) (o : Node) : List Node :=
  (g.filter (fun t => t.2.1 = p && t.2.2 = o)).map (fun t => t.1)

/-- Model of `any(g.triples((s, p, None)))`: does `s` carry at least one `p` triple? -/
def hasProp (g : Graph) (s : Node) (p : String) : Bool :=
  g.any (fun t => t.1 = s && t.2.1 = p)

/-- Model of `(s, p, o) in g`. -/
def hasTriple (g : Graph) (s : Node) (p : String) (o : Node) : Bool :=
  g.any (fun t => t.1 = s && t.2.1 = p && t.2.2 = o)

/-- The objects of all triples `(s, p, _)` in `g`. -/
def objectsOf (g : Graph) (s : Node) (p : String) : List Node :=
  (g.filter (fun t => t.1 = s && t.2.1 = p)).map (fun t => t.2.2)

/-- Python `s.startswith(pre)`. -/
def pyStartsWith (s pre : String) : Bool := pre.data.isPrefixOf s.data

/-- Python `s.endswith(suf)`. -/
def pyEndsWith (s suf : String) : Bool := suf.data.isSuffixOf s.data

/-- Is `sub` a contiguous sublist of the second argument? -/
def listHasSub (sub : List Char) : List Char → Bool
  | [] => sub.isPrefixOf []
  | c :: t => sub.isPrefixOf (c :: t) || listHasSub sub t

/-- Python substring test `sub in s`. -/
def containsSub (s sub : String) : Bool := listHasSub sub.data s.data

/-- Python `s.replace(a, b)` for single-character patterns. -/
def pyCharReplace (s : String) (a b : Char) : String :=
  ⟨s.data.map (fun c => if c = a then b else c)⟩

/-- Python `s.capitalize()`: first character upper-cased, rest lower-cased. -/
def pyCapitalize (s : String) : String :=
  match s.data with
  | [] => ⟨[]⟩
  | c :: t => ⟨c.toUpper :: t.map Char.toLower⟩

/-- Python `s.lower()`. -/
def pyLower (s : String) : String := ⟨s.data.map Char.toLower⟩

/-- Python `round` applied to the exact value: round to the nearest
integer, ties to the even integer. -/
def pyRound (q : ℚ) : ℤ :=
  if Int.fract q < 1 / 2 then ⌊q⌋
  else if 1 / 2 < Int.fract q then ⌊q⌋ + 1
  else if ⌊q⌋ % 2 = 0 then ⌊q⌋ else ⌊q⌋ + 1

/-- Python `int(...)` on a non-negative exact value: truncation. -/
def pyInt (q : ℚ) : ℤ :=
  if 0 ≤ q then ⌊q⌋ else -⌊-q⌋

/-- The `context` dictionary built by `calculate_metrics` /
`validate_metadata_quality`. -/
structure Ctx where
  shaclLevel : Nat
  model : String
deriving DecidableEq, Repr

/-- The external world a single evaluation interacts with: the HTTP probe
(`requests.head` / `requests.get` on a normalized URL, collapsed to its
net reachability outcome), the file system holding SHACL shape files, the
remote fallback shape locations, the pyshacl engine, and the CSV
vocabulary allow-sets loaded at checker-construction time. -/
structure Env where
  urlOk : String → Bool
  fileExists : String → Bool
  parseFileOk : String → Bool
  parseUrlOk : String → Bool
  validateConforms : Except Unit Bool
  vocab : String → List String
  vocabLabels : String → String → List String

/-- The closed set of checker variants of `validators.py` (the concrete
`MetricChecker` subclasses).  Vocabulary-based checkers carry the allow-set
their constructor loaded from CSV. -/
inductive Checker
  | property (prop : String)
  | entityTypeProperty (prop : String) (etype : Node)
  | multipleEntityTypesProperty (prop : String) (etypes : List Node)
  | entityTypeURLStatus (prop : String) (etype : Node)
  | vocabularyCompliance (props : List String) (allowed : List String)
  | vocabularyLabelCompliance (props : List String) (allowedLabels : List String)
      (labelProp : String)
  | shaclCompliance (files : List String) (fallback : Option String)
  | multiLevelShaclCompliance (filesByLevel : List (Nat × List String))
      (fallback : Option String) (level : Nat)
deriving DecidableEq, Repr

/-- The Python class name of the checker, as tested by the substring
dispatch of `calculate_metrics` (`str(checker.__class__)` also carries the
module wrapper around this name, which contains neither of the two probed
substrings). -/
def Checker.className : Checker → String
  | .property _ => "PropertyChecker"
  | .entityTypeProperty _ _ => "EntityTypePropertyChecker"
  | .multipleEntityTypesProperty _ _ => "MultipleEntityTypesPropertyChecker"
  | .entityTypeURLStatus _ _ => "EntityTypeURLStatusChecker"
  | .vocabularyCompliance _ _ => "VocabularyComplianceChecker"
  | .vocabularyLabelCompliance _ _ _ => "VocabularyLabelComplianceChecker_NTI"
  | .shaclCompliance _ _ => "SHACLComplianceChecker"
  | .multiLevelShaclCompliance _ _ _ => "MultiLevelSHACLComplianceChecker"

/-- URL normalization of `EntityTypeURLStatusChecker.check`: prepend a
scheme when absent. -/
def normalizeUrl (u : String) : String :=
  if pyStartsWith u "http://" || pyStartsWith u "https://" then u
  else "http://" ++ u

/-- URL value collection of `EntityTypeURLStatusChecker.check`: every
URI-ref or literal object of `prop` on the given entities (blank nodes are
skipped). -/
def urlStrings (g : Graph) (entities : List Node) (prop : String) : List String :=
  entities.flatMap (fun e =>
    (objectsOf g e prop).filterMap (fun o =>
      match o with
      | .uri s => some s
      | .lit s => some s
      | .bnode _ => none))

/-- Shape loading loop of `SHACLComplianceChecker.check`: a local file set
is loaded as soon as one file exists and parses (per-file parse errors are
only logged). -/
def localShapesLoaded (env : Env) (files : List String) : Bool :=
  files.any (fun f => env.fileExists f && env.parseFileOk f)

/-- The flag `local_files_loaded` after the fallback-URL attempt. -/
def shapesLoaded (env : Env) (files : List String) (fallback : Option String) : Bool :=
  let loaded := localShapesLoaded env files
  if !loaded then
    match fallback with
    | some u => env.parseUrlOk u
    | none => false
  else loaded

/-- Body of `SHACLComplianceChecker.check` after the (caught) auto-update
attempt: load shapes, fall back, validate; every failure is absorbed into
`(0, 1)`. -/
def shaclCheckRun (env : Env) (files : List String) (fallback : Option String) :
    Nat × Nat :=
  if !shapesLoaded env files fallback then (0, 1)
  else
    match env.validateConforms with
    | .ok conforms => if conforms then (1, 1) else (0, 1)
    | .error _ => (0, 1)

/-- Per-value compliance test of `VocabularyLabelComplianceChecker_NTI`:
URI values match through a label triple or a lower-cased substring of the
URI text, blank nodes only through a label triple, literals directly. -/
def compliantLabelValue (g : Graph) (allowedLabels : List String)
    (labelProp : String) (v : Node) : Bool :=
  match v with
  | .uri s =>
    if (objectsOf g (.uri s) labelProp).any
        (fun l => allowedLabels.contains (pyLower l.asString)) then true
    else allowedLabels.any (fun lab => containsSub (pyLower s) lab)
  | .bnode b =>
    (objectsOf g (.bnode b) labelProp).any
      (fun l => allowedLabels.contains (pyLower l.asString))
  | .lit s => allowedLabels.contains (pyLower s)

/-- Model of `check(self, g, resources, context)` for each checker variant. -/
def Checker.check (ck : Checker) (env : Env) (g : Graph) (resources : List Node)
    (ctx : Option Ctx) : Nat × Nat :=
  match ck with
  | .property prop =>
    if resources.length = 0 then (0, 0)
    else (resources.countP (fun r => hasProp g r prop), resources.length)
  | .entityTypeProperty prop etype =>
    let entities := subjectsWith g rdfType etype
    if entities.length = 0 then (0, 0)
    else (entities.countP (fun e => hasProp g e prop), entities.length)
  | .multipleEntityTypesProperty prop etypes =>
    etypes.foldl (fun acc etype =>
      let entities := subjectsWith g rdfType etype
      (acc.1 + entities.countP (fun e => hasProp g e prop),
       acc.2 + entities.length)) (0, 0)
  | .entityTypeURLStatus prop etype =>
    let entities :=
      if resources.length > 0 then
        resources.filter (fun e => hasTriple g e rdfType etype)
      else subjectsWith g rdfType etype
    let urls := urlStrings g entities prop
    if urls.length = 0 then (0, 0)
    else (urls.countP (fun u => env.urlOk (normalizeUrl u)), urls.length)
  | .vocabularyCompliance props allowed =>
    let vals := resources.flatMap (fun r => props.flatMap (fun p => objectsOf g r p))
    (vals.countP (fun v =>
      match v with
      | .uri s => allowed.contains s
      | _ => false), vals.length)
  | .vocabularyLabelCompliance props allowedLabels labelProp =>
    let vals := resources.flatMap (fun r => props.flatMap (fun p => objectsOf g r p))
    (vals.countP (fun v => compliantLabelValue g allowedLabels labelProp v),
     vals.length)
  | .shaclCompliance files fallback => shaclCheckRun env files fallback
  | .multiLevelShaclCompliance filesByLevel fallback level =>
    let lvl := match ctx with | some c => c.shaclLevel | none => level
    let files := (filesByLevel.lookup lvl).getD []
    shaclCheckRun env files fallback

/-- A metric definition as stored by `MetricRegistry.register_metric`:
only an id, a dimension and a weight (no resource-scope tag). -/
structure Metric where
  id : String
  dimension : Dimension
  weight : Nat
deriving DecidableEq, Repr

/-- One entry of the metric-results list built by `calculate_metrics`. -/
structure MetricResult where
  id : String
  dimension : Dimension
  count : Nat
  population : Nat
  percentage : ℚ
  points : ℚ
  weight : Nat
  label_en : String
  label_es : String
deriving DecidableEq, Repr

/-- Model of `config.COMMON_METRICS`. -/
def COMMON_METRICS : List Metric :=
  [⟨"dcat_keyword", .findability, 30⟩,
   ⟨"dcat_theme", .findability, 30⟩,
   ⟨"dct_spatial", .findability, 20⟩,
   ⟨"dct_temporal", .findability, 20⟩,
   ⟨"dcat_accessURL_status", .accessibility, 50⟩,
   ⟨"dct_format", .interoperability, 20⟩,
   ⟨"dcat_mediaType", .interoperability, 10⟩,
   ⟨"dcat_byteSize", .contextuality, 5⟩,
   ⟨"dct_issued", .contextuality, 5⟩,
   ⟨"dct_modified", .contextuality, 5⟩]

/-- Model of `config.DCAT_COMMON_METRICS`. -/
def DCAT_COMMON_METRICS : List Metric :=
  [⟨"dcat_downloadURL", .accessibility, 20⟩,
   ⟨"dcat_downloadURL_status", .accessibility, 30⟩,
   ⟨"dct_format_vocabulary", .interoperability, 5⟩,
   ⟨"dct_mediaType_vocabulary", .interoperability, 5⟩,
   ⟨"dct_format_nonproprietary", .interoperability, 20⟩,
   ⟨"dct_format_machinereadable", .interoperability, 20⟩,
   ⟨"dct_license", .reusability, 20⟩,
   ⟨"dct_license_vocabulary", .reusability, 10⟩,
   ⟨"dct_accessRights", .reusability, 10⟩,
   ⟨"dct_accessRights_vocabulary", .reusability, 5⟩,
   ⟨"dcat_contactPoint", .reusability, 20⟩,
   ⟨"dct_publisher", .reusability, 10⟩,
   ⟨"dct_rights", .contextuality, 5⟩]

/-- Model of `config.DCAT_AP_ES_SPECIFIC_METRICS`. -/
def DCAT_AP_ES_SPECIFIC_METRICS : List Metric :=
  [⟨"dcat_ap_es_compliance", .interoperability, 30⟩]

/-- Model of `config.DCAT_AP_SPECIFIC_METRICS`. -/
def DCAT_AP_SPECIFIC_METRICS : List Metric :=
  [⟨"dcat_ap_compliance", .interoperability, 30⟩]

/-- Model of `config.NTI_RISP_SPECIFIC_METRICS`. -/
def NTI_RISP_SPECIFIC_METRICS : List Metric :=
  [⟨"dct_format_vocabulary_nti_risp", .interoperability, 5⟩,
   ⟨"dct_format_nonproprietary", .interoperability, 20⟩,
   ⟨"dct_format_machinereadable", .interoperability, 20⟩,
   ⟨"nti_risp_compliance", .interoperability, 30⟩,
   ⟨"dct_license", .reusability, 20⟩,
   ⟨"dct_license_vocabulary", .reusability, 10⟩,
   ⟨"dct_publisher", .reusability, 10⟩]

/-- The `config.METRICS_BY_PROFILE` dictionary, as a partial lookup. -/
def METRICS_BY_PROFILE (p : String) : Option (List Metric) :=
  if p = "dcat_ap" then
    some (COMMON_METRICS ++ DCAT_COMMON_METRICS ++ DCAT_AP_SPECIFIC_METRICS)
  else if p = "dcat_ap_es" then
    some (COMMON_METRICS ++ DCAT_COMMON_METRICS ++ DCAT_AP_ES_SPECIFIC_METRICS)
  else if p = "nti_risp" then
    some (COMMON_METRICS ++ NTI_RISP_SPECIFIC_METRICS)
  else none

/-- Model of `config.DEFAULT_METRICS = METRICS_BY_PROFILE["dcat_ap_es"]`. -/
def DEFAULT_METRICS : List Metric :=
  (METRICS_BY_PROFILE "dcat_ap_es").getD []

/-- Model of `register_standard_metrics(profile)`: the metric set the registry holds
after registration — `METRICS_BY_PROFILE.get(profile, DEFAULT_METRICS)`,
silently falling back to the default set for an unknown profile name. -/
def register_standard_metrics (profile : String) : List Metric :=
  (METRICS_BY_PROFILE profile).getD DEFAULT_METRICS

/-- Model of `config.METRIC_LABELS`, as (id, english, spanish) rows. -/
def METRIC_LABELS : List (String × String × String) :=
  [("dcat_keyword", "Keywords", "Palabras clave"),
   ("dcat_theme", "Themes/Categories", "Temas/Categorías"),
   ("dct_spatial", "Spatial Coverage", "Cobertura espacial"),
   ("dct_temporal", "Temporal Coverage", "Cobertura temporal"),
   ("dcat_accessURL_status", "Access URL Availability", "Disponibilidad de URL de acceso"),
   ("dcat_downloadURL", "Download URL", "URL de descarga"),
   ("dcat_downloadURL_status", "Download URL Availability", "Disponibilidad de URL de descarga"),
   ("dct_format", "Format", "Formato"),
   ("dcat_mediaType", "Media Type", "Tipo de medio"),
   ("dct_format_vocabulary", "Format Vocabulary", "Vocabulario de formato"),
   ("dct_format_nonproprietary", "Non-proprietary Format", "Formato no propietario"),
   ("dct_format_machinereadable", "Machine-readable Format", "Formato legible por máquina"),
   ("dcat_ap_compliance", "DCAT-AP Compliance", "Conformidad con DCAT-AP"),
   ("dcat_ap_es_compliance", "DCAT-AP-ES Compliance", "Conformidad con DCAT-AP-ES"),
   ("nti_risp_compliance", "NTI-RISP Compliance", "Conformidad con NTI-RISP (2013)"),
   ("dct_license", "License", "Licencia"),
   ("dct_license_vocabulary", "License Vocabulary", "Vocabulario de licencia"),
   ("dct_accessRights", "Access Rights", "Derechos de acceso"),
   ("dct_accessRights_vocabulary", "Access Rights Vocabulary", "Vocabulario de derechos de acceso"),
   ("dcat_contactPoint", "Contact Point", "Punto de contacto"),
   ("dct_publisher", "Publisher", "Editor"),
   ("dct_rights", "Rights", "Derechos"),
   ("dcat_byteSize", "Byte Size", "Tamaño en bytes"),
   ("dct_issued", "Issued Date", "Fecha de emisión"),
   ("dct_modified", "Modified Date", "Fecha de modificación"),
   ("dct_format_vocabulary_nti_risp", "Format Vocabulary (NTI-RISP)", "Vocabulario de formato (NTI-RISP)")]

/-- Fallback of `converters.get_metric_label`:
`metric_id.replace("_", " ").capitalize()`. -/
def fallbackLabel (id : String) : String :=
  pyCapitalize (pyCharReplace id '_' ' ')

/-- Model of `converters.get_metric_label`. -/
def get_metric_label (id lang : String) : String :=
  match METRIC_LABELS.find? (fun e => e.1 = id) with
  | some e =>
    if lang = "en" then e.2.1
    else if lang = "es" then e.2.2
    else fallbackLabel id
  | none => fallbackLabel id

/-- Model of `config.DCAT_AP_SHACL_FILES` (levels 1-3), keeping the file base
names of the configured paths. -/
def DCAT_AP_SHACL_FILES : List (Nat × List String) :=
  [(1, ["dcat-ap_2.1.1_shacl_shapes.ttl",
        "dcat-ap_2.1.1_shacl_imports.ttl",
        "dcat-ap_2.1.1_shacl_range.ttl",
        "dcat-ap_2.1.1_shacl_deprecateduris.ttl"]),
   (2, ["dcat-ap_2.1.1_shacl_shapes.ttl",
        "dcat-ap_2.1.1_shacl_imports.ttl",
        "dcat-ap_2.1.1_shacl_range.ttl",
        "dcat-ap_2.1.1_shacl_deprecateduris.ttl",
        "dcat-ap_2.1.1_shacl_mdr-vocabularies.shape.ttl",
        "dcat-ap_2.1.1_shacl_mdr_imports.ttl"]),
   (3, ["dcat-ap_2.1.1_shacl_shapes.ttl",
        "dcat-ap_2.1.1_shacl_imports.ttl",
        "dcat-ap_2.1.1_shacl_range.ttl",
        "dcat-ap_2.1.1_shacl_deprecateduris.ttl",
        "dcat-ap_2.1.1_shacl_mdr-vocabularies.shape.ttl",
        "dcat-ap_2.1.1_shacl_mdr_imports.ttl",
        "dcat-ap_2.1.1_shacl_shapes_recommended.ttl"])]

/-- Model of `config.DCAT_AP_ES_SHACL_FILES`. -/
def DCAT_AP_ES_SHACL_FILES : List String :=
  ["dcat-ap-es/shacl_catalog_shape.ttl",
   "dcat-ap-es/shacl_common_shapes.ttl",
   "dcat-ap-es/shacl_dataservice_shape.ttl",
   "dcat-ap-es/shacl_dataset_shape.ttl",
   "dcat-ap-es/shacl_distribution_shape.ttl",
   "dcat-ap-es/shacl_mdr-vocabularies.shape.ttl"]

/-- Model of `config.NTI_RISP_SHACL_FILES`. -/
def NTI_RISP_SHACL_FILES : List String :=
  ["nti-risp/shacl_catalog_shape.ttl",
   "nti-risp/shacl_common_shapes.ttl",
   "nti-risp/shacl_dataservice_shape.ttl",
   "nti-risp/shacl_dataset_shape.ttl",
   "nti-risp/shacl_distribution_shape.ttl",
   "nti-risp/shacl_mdr-vocabularies.shape.ttl"]

def DCAT_AP_SHAPES_URL : String :=
  "https://raw.githubusercontent.com/SEMICeu/DCAT-AP/master/releases/2.1.1/dcat-ap_2.1.1_shacl_shapes.ttl"

def DCAT_AP_ES_SHAPES_URL : String :=
  "https://raw.githubusercontent.com/datosgobes/DCAT-AP-ES/main/shacl/1.0.0/shacl_common_shapes.ttl"

def NTI_RISP_SHAPES_URL : String :=
  "https://raw.githubusercontent.com/datosgobes/NTI-RISP/main/shacl/1.0.0/shacl_common_shapes.ttl"

/-- Model of `validators.CHECKER_DEFINITIONS`: the checker constructed for each
metric id; the CSV allow-sets come from the environment (vocabulary
loader), keyed by the `config.MQA_VOCABS` source name. -/
def CHECKER_DEFINITIONS (env : Env) : List (String × Checker) :=
  [("dcat_keyword", .entityTypeProperty "dcat:keyword" dcatDataset),
   ("dcat_theme", .entityTypeProperty "dcat:theme" dcatDataset),
   ("dct_spatial", .entityTypeProperty "dct:spatial" dcatDataset),
   ("dct_temporal", .entityTypeProperty "dct:temporal" dcatDataset),
   ("dcat_accessURL_status", .entityTypeURLStatus "dcat:accessURL" dcatDistribution),
   ("dcat_downloadURL", .entityTypeProperty "dcat:downloadURL" dcatDistribution),
   ("dcat_downloadURL_status", .entityTypeURLStatus "dcat:downloadURL" dcatDistribution),
   ("dct_format", .entityTypeProperty "dct:format" dcatDistribution),
   ("dcat_mediaType", .entityTypeProperty "dcat:mediaType" dcatDistribution),
   ("dct_format_vocabulary", .vocabularyCompliance ["dct:format"] (env.vocab "file_types")),
   ("dct_mediaType_vocabulary", .vocabularyCompliance ["dcat:mediaType"] (env.vocab "media_types")),
   ("dct_format_nonproprietary", .vocabularyCompliance ["dct:format"] (env.vocab "non_proprietary")),
   ("dct_format_machinereadable", .vocabularyCompliance ["dct:format"] (env.vocab "machine_readable")),
   ("dcat_ap_compliance", .multiLevelShaclCompliance DCAT_AP_SHACL_FILES (some DCAT_AP_SHAPES_URL) 2),
   ("dcat_ap_es_compliance", .shaclCompliance DCAT_AP_ES_SHACL_FILES (some DCAT_AP_ES_SHAPES_URL)),
   ("nti_risp_compliance", .shaclCompliance NTI_RISP_SHACL_FILES (some NTI_RISP_SHAPES_URL)),
   ("dct_license", .entityTypeProperty "dct:license" dcatDistribution),
   ("dct_license_vocabulary", .vocabularyCompliance ["dct:license"] (env.vocab "license")),
   ("dct_accessRights", .entityTypeProperty "dct:accessRights" dcatDataset),
   ("dct_accessRights_vocabulary", .vocabularyCompliance ["dct:accessRights"] (env.vocab "access_rights")),
   ("dcat_contactPoint", .entityTypeProperty "dcat:contactPoint" dcatDataset),
   ("dct_publisher", .entityTypeProperty "dct:publisher" dcatDataset),
   ("dct_rights", .entityTypeProperty "dct:rights" dcatDistribution),
   ("dcat_byteSize", .entityTypeProperty "dcat:byteSize" dcatDistribution),
   ("dct_issued", .multipleEntityTypesProperty "dct:issued" [dcatDataset, dcatDistribution]),
   ("dct_modified", .multipleEntityTypesProperty "dct:modified" [dcatDataset, dcatDistribution]),
   ("dct_format_vocabulary_nti_risp",
     .vocabularyLabelCompliance ["dct:format"] (env.vocabLabels "file_types" "label_es") "rdfs:label")]

/-- Model of `register_standard_checkers(checkerProfile)` acting on a registry whose
metric dictionary holds `registeredMetricIds`: a checker ends up registered
for an id exactly when the id belongs to the checker profile's metric set,
has a constructor in `CHECKER_DEFINITIONS`, and is a registered metric
(`register_checker` raises otherwise and the loop catches and skips). -/
def registeredCheckers (env : Env) (checkerProfile : String)
    (registeredMetricIds : List String) (id : String) : Option Checker :=
  if ((register_standard_metrics checkerProfile).map Metric.id).contains id
      && registeredMetricIds.contains id then
    (CHECKER_DEFINITIONS env).lookup id
  else none

/-- A checker as `calculate_metrics` sees it: an object carrying its class
name (inspected by the resource dispatch) and an executable `check` that
may raise. -/
structure CheckerObj where
  className : String
  run : Graph → List Node → Except Unit (Nat × Nat)

/-- The registry's `get_checker` after standard registration: total
checkers built from the closed variant set. -/
def standardGetChecker (env : Env) (ctx : Option Ctx) (checkerProfile : String)
    (registeredMetricIds : List String) (id : String) : Option CheckerObj :=
  (registeredCheckers env checkerProfile registeredMetricIds id).map
    (fun ck => ⟨ck.className, fun g rs => .ok (ck.check env g rs ctx)⟩)

/-- The resource dispatch of `calculate_metrics` (lines 929-949): selects
the candidate resources by string-matching the metric id's prefix and
substring-testing the checker's class name. -/
def resolveResources (id className : String) (datasets distributions : List Node) :
    List Node :=
  if pyStartsWith id "dcat_" then
    if containsSub className "Dataset" then datasets else distributions
  else if pyStartsWith id "dct_" then
    if containsSub className "MultipleEntityTypes" then datasets ++ distributions
    else if containsSub className "Dataset" then datasets
    else distributions
  else datasets ++ distributions

/-- The compliance-metric guard of `calculate_metrics`: is this the
compliance metric designated for the model? -/
def designated (model id : String) : Bool :=
  (model = "dcat_ap" && id = "dcat_ap_compliance")
  || (model = "dcat_ap_es" && id = "dcat_ap_es_compliance")
  || (model = "nti_risp" && id = "nti_risp_compliance")

/-- The per-metric body of the `calculate_metrics` loop, after the
compliance guard: look up the checker (skip when absent), resolve the
candidate resources, run the checker catching any exception as
`(0, len(resources) if resources else 1)`, derive percentage and points,
attach the localized labels. -/
def stepMetric (getChecker : String → Option CheckerObj) (g : Graph)
    (datasets distributions : List Node) (m : Metric) : Option MetricResult :=
  match getChecker m.id with
  | none => none
  | some co =>
    let resourcesToCheck := resolveResources m.id co.className datasets distributions
    let cp : Nat × Nat :=
      match co.run g resourcesToCheck with
      | .ok cp => cp
      | .error _ => (0, if resourcesToCheck.isEmpty then 1 else resourcesToCheck.length)
    let percentage : ℚ := if cp.2 > 0 then (cp.1 : ℚ) / (cp.2 : ℚ) else 0
    some { id := m.id, dimension := m.dimension, count := cp.1, population := cp.2,
           percentage := percentage, points := percentage * (m.weight : ℚ),
           weight := m.weight,
           label_en := get_metric_label m.id "en",
           label_es := get_metric_label m.id "es" }

/-- The metric loop of `calculate_metrics` with its `compliance_included`
flag: a compliance metric is skipped once the flag is set or when it is not
the one designated for the model. -/
def calcMetricsAux (getChecker : String → Option CheckerObj) (g : Graph)
    (model : String) (datasets distributions : List Node) :
    Bool → List Metric → List MetricResult
  | _, [] => []
  | flag, m :: rest =>
    if pyEndsWith m.id "_compliance" then
      if flag then calcMetricsAux getChecker g model datasets distributions flag rest
      else if designated model m.id then
        match stepMetric getChecker g datasets distributions m with
        | none => calcMetricsAux getChecker g model datasets distributions true rest
        | some r => r :: calcMetricsAux getChecker g model datasets distributions true rest
      else calcMetricsAux getChecker g model datasets distributions flag rest
    else
      match stepMetric getChecker g datasets distributions m with
      | none => calcMetricsAux getChecker g model datasets distributions flag rest
      | some r => r :: calcMetricsAux getChecker g model datasets distributions flag rest

/-- Model of `calculate_metrics(g, shacl_level, model)` over the registered metric
list: compute the dataset and distribution universes once, then run the
loop. -/
def calculate_metrics (getChecker : String → Option CheckerObj) (g : Graph)
    (model : String) (metrics : List Metric) : List MetricResult :=
  calcMetricsAux getChecker g model
    (subjectsWith g rdfType dcatDataset) (subjectsWith g rdfType dcatDistribution)
    false metrics

/-- The metrics the loop of `calculate_metrics` actually processes (the
compliance guard applied, checker availability not yet considered). -/
def activeMetricsAux (model : String) : Bool → List Metric → List Metric
  | _, [] => []
  | flag, m :: rest =>
    if pyEndsWith m.id "_compliance" then
      if flag then activeMetricsAux model flag rest
      else if designated model m.id then m :: activeMetricsAux model true rest
      else activeMetricsAux model flag rest
    else m :: activeMetricsAux model flag rest

/-- The active metric set of an evaluation. -/
def activeMetrics (model : String) (metrics : List Metric) : List Metric :=
  activeMetricsAux model false metrics

/-- The dictionary update `dimension_scores[dimension] += points`. -/
def addPoints (scores : Dimension → ℚ) (d : Dimension) (p : ℚ) : Dimension → ℚ :=
  fun x => if x = d then scores x + p else scores x

/-- The accumulation loop of `calculate_dimension_scores`, starting from
the all-zero dictionary. -/
def rawDimensionScores (metrics : List MetricResult) : Dimension → ℚ :=
  metrics.foldl (fun acc m => addPoints acc m.dimension m.points) (fun _ => 0)

/-- Model of `calculate_dimension_scores`: accumulate points per dimension, then
round each dimension with Python `round`. -/
def calculate_dimension_scores (metrics : List MetricResult) : Dimension → ℤ :=
  fun d => pyRound (rawDimensionScores metrics d)

/-- Model of `sum(dimension_scores.values())` over the five dimensions. -/
def sumDimensionValues (f : Dimension → ℤ) : ℤ :=
  f .findability + f .accessibility + f .interoperability + f .reusability
    + f .contextuality

/-- Model of `validators.calculate_max_score`. -/
def calculate_max_score (metrics : List Metric) : Nat :=
  metrics.foldl (fun acc m => acc + m.weight) 0

/-- Rating threshold triple (lower bounds). -/
structure Thresholds where
  excellent : ℤ
  good : ℤ
  sufficient : ℤ
deriving DecidableEq, Repr

/-- Model of `config.RATING_THRESHOLDS` (the dcat_ap_es entry, kept as the
fallback for unknown models in `determine_rating`). -/
def RATING_THRESHOLDS : Thresholds := ⟨351, 221, 121⟩

/-- Model of `validators.MAX_SCORES["nti_risp"]`, computed from the profile's
metric weights. -/
def ntiRispMaxScore : Nat :=
  calculate_max_score ((METRICS_BY_PROFILE "nti_risp").getD [])

/-- Model of `validators.RATING_THRESHOLDS_BY_PROFILE` (the module-local dictionary
that shadows the config one; the nti_risp entry is derived from the
profile's maximum score). -/
def RATING_THRESHOLDS_BY_PROFILE (p : String) : Option Thresholds :=
  if p = "dcat_ap" then some ⟨351, 221, 121⟩
  else if p = "dcat_ap_es" then some ⟨351, 221, 121⟩
  else if p = "nti_risp" then
    some ⟨pyInt ((ntiRispMaxScore : ℚ) * (8 / 10)),
          pyInt ((ntiRispMaxScore : ℚ) * (6 / 10)),
          pyInt ((ntiRispMaxScore : ℚ) * (4 / 10))⟩
  else none

/-- Model of `determine_rating(total_score, model)`: highest tier whose lower bound
is met; unknown models silently fall back to the default thresholds. -/
def determine_rating (totalScore : ℤ) (model : String) : Rating :=
  let th := (RATING_THRESHOLDS_BY_PROFILE model).getD RATING_THRESHOLDS
  if totalScore ≥ th.excellent then .excellent
  else if totalScore ≥ th.good then .good
  else if totalScore ≥ th.sufficient then .sufficient
  else .bad

/-- The report dictionary assembled by the validation entry points. -/
structure QualityReport where
  source : String
  created : String
  model : String
  totalScore : ℤ
  rating : Rating
  dimensions : Dimension → ℤ
  metrics : List MetricResult

/-- External collaborators of the direct-content path: the rdflib parser
(per format name and content) and the current timestamp/date. -/
structure ContentEnv where
  parse : String → String → Except Unit Graph
  now : String
  today : String

/-- The content-type dispatch of `load_graph_from_content`: the four
supported MIME types and their rdflib format names. -/
def fmtForContentType (ctype : String) : Option String :=
  if ctype = "application/rdf+xml" then some "xml"
  else if ctype = "text/turtle" then some "turtle"
  else if ctype = "application/ld+json" then some "json-ld"
  else if ctype = "application/n-triples" then some "nt"
  else none

/-- Model of `load_graph_from_content(content, content_type)`: an unsupported
content type, a parser failure, or an empty parsed graph all raise. -/
def load_graph_from_content (cenv : ContentEnv) (content ctype : String) :
    Except String Graph :=
  match fmtForContentType ctype with
  | none => .error ("Unsupported content type: " ++ ctype)
  | some fmt =>
    match cenv.parse fmt content with
    | .error _ => .error "Error parsing content"
    | .ok g =>
      if g.length = 0 then
        .error "The parsed graph is empty. Please check your input."
      else .ok g

/-- Model of `validate_metadata_from_content(content, content_type, model,
shacl_level)`: parse, register metrics for the model but checkers for the
default profile (the code calls `register_standard_checkers()` without an
argument), run the metrics, aggregate, rate and assemble the report;
a graph-load failure is re-raised and no report is produced. -/
def validate_metadata_from_content (env : Env) (cenv : ContentEnv)
    (content ctype model : String) (shaclLevel : Nat) :
    Except String QualityReport :=
  match load_graph_from_content cenv content ctype with
  | .error e => .error ("Error validating content: " ++ e)
  | .ok g =>
    let metrics := register_standard_metrics model
    let getChecker := standardGetChecker env (some ⟨shaclLevel, model⟩)
      "dcat_ap_es" (metrics.map Metric.id)
    let results := calculate_metrics getChecker g model metrics
    let dims := calculate_dimension_scores results
    let total := sumDimensionValues dims
    .ok { source := "direct-input-" ++ cenv.now, created := cenv.today,
          model := model, totalScore := total,
          rating := determine_rating total model,
          dimensions := dims, metrics := results }

/-! ## Concrete fixtures used by witnesses -/

/-- A degenerate environment: every probe fails, no files exist, every
vocabulary is empty, the validation engine raises. -/
def envW : Env :=
  { urlOk := fun _ => false, fileExists := fun _ => false,
    parseFileOk := fun _ => false, parseUrlOk := fun _ => false,
    validateConforms := .error (), vocab := fun _ => [],
    vocabLabels := fun _ _ => [] }

/-- A content environment whose parser yields a one-dataset graph. -/
def cenvW : ContentEnv :=
  { parse := fun _ _ => .ok [(Node.uri "d", rdfType, dcatDataset)],
    now := "20250101000000", today := "2025-01-01" }

/-- A concrete run of the direct-content pipeline. -/
def reportRunW : Except String QualityReport :=
  validate_metadata_from_content envW cenvW "c" "text/turtle" "dcat_ap_es" 2

/-- Two plain metrics for registry-level scenarios. -/
def metricsW2 : List Metric :=
  [⟨"m_a", .findability, 10⟩, ⟨"m_b", .accessibility, 20⟩]

/-- The first metric of `metricsW2` (the one whose checker will raise). -/
def mfW : Metric := ⟨"m_a", .findability, 10⟩

/-- A checker object that always raises. -/
def failObjW : CheckerObj := ⟨"X", fun _ _ => .error ()⟩

/-- A checker object that returns `(1, 2)`. -/
def okObjW : CheckerObj := ⟨"X", fun _ _ => .ok (1, 2)⟩

/-- A registry where the checker of `m_a` raises and the one of `m_b`
succeeds. -/
def getCheckerW2 (id : String) : Option CheckerObj :=
  if id = "m_a" then some failObjW
  else if id = "m_b" then some okObjW
  else none

/-- A registry binding every id to the `(1, 2)` checker. -/
def getCheckerW3 (_ : String) : Option CheckerObj := some okObjW

/-- The result list `calculate_metrics` produces for the metric `m_b` with
the registry `getCheckerW3` on the empty graph. -/
def listC3 : List MetricResult :=
  calculate_metrics getCheckerW3 [] "dcat_ap_es" [⟨"m_b", .accessibility, 20⟩]

/-- The single result of that run. -/
def rC3 : MetricResult := listC3.head (by decide)

/-- An nti_risp evaluation of a single ordinary metric. -/
def listC4 : List MetricResult :=
  calculate_metrics getCheckerW3 [] "nti_risp" [⟨"dcat_keyword", .findability, 30⟩]

/-- The single result of that run. -/
def rC4 : MetricResult := listC4.head (by decide)

/-- A dataset node. -/
def nodeD : Node := .uri "ds1"

/-- A distribution node. -/
def nodeR : Node := .uri "dist1"

/-- A standard-registry evaluation of the dcat_keyword metric over the
empty graph. -/
def listC9 : List MetricResult :=
  calculate_metrics
    (standardGetChecker envW (some ⟨2, "dcat_ap_es"⟩) "dcat_ap_es" ["dcat_keyword"])
    [] "dcat_ap_es" [⟨"dcat_keyword", .findability, 30⟩]

/-- The single result of that run. -/
def rC9 : MetricResult := listC9.head (by decide)

/-- A content environment whose parser yields an empty graph. -/
def cenvE : ContentEnv :=
  { parse := fun _ _ => .ok [], now := "20250101000000", today := "2025-01-01" }

/-! ## General lemmas about the embedding -/

/-- The rounding `pyRound` takes a value to a nearest integer, breaking exact ties
towards the even integer. -/
theorem pyRound_dist (q : ℚ) :
    |q - (pyRound q : ℚ)| ≤ 1 / 2
      ∧ (|q - (pyRound q : ℚ)| = 1 / 2 → 2 ∣ pyRound q) := by
  have h0 : 0 ≤ Int.fract q := Int.fract_nonneg q
  have h1 : Int.fract q < 1 := Int.fract_lt_one q
  have hfr : Int.fract q = q - ⌊q⌋ := rfl
  have habsf : |q - (⌊q⌋ : ℚ)| = Int.fract q := by
    rw [hfr]; exact abs_of_nonneg h0
  have habss : |q - ((⌊q⌋ + 1 : ℤ) : ℚ)| = 1 - Int.fract q := by
    push_cast
    rw [show q - ((⌊q⌋ : ℚ) + 1) = -(1 - Int.fract q) by rw [hfr]; ring]
    rw [abs_neg]
    exact abs_of_nonneg (by linarith)
  unfold pyRound
  split_ifs with hlt hgt hev
  · exact ⟨by rw [habsf]; linarith,
      fun he => absurd (by rw [habsf] at he; exact he) (ne_of_lt hlt)⟩
  · refine ⟨by rw [habss]; linarith, fun he => ?_⟩
    rw [habss] at he
    exact absurd (by linarith : Int.fract q = 1 / 2) (ne_of_gt hgt)
  · have hf : Int.fract q = 1 / 2 := le_antisymm (not_lt.mp hgt) (not_lt.mp hlt)
    exact ⟨by rw [habsf, hf], fun _ => Int.dvd_of_emod_eq_zero hev⟩
  · have hf : Int.fract q = 1 / 2 := le_antisymm (not_lt.mp hgt) (not_lt.mp hlt)
    refine ⟨by rw [habss, hf]; norm_num, fun _ => ?_⟩
    have h2 : ⌊q⌋ % 2 = 0 ∨ ⌊q⌋ % 2 = 1 := Int.emod_two_eq ⌊q⌋
    omega

/-- Unrolling the accumulation loop of `calculate_dimension_scores`: the
dictionary entry of a dimension is the initial value plus the sum of the
points of that dimension's results. -/
theorem foldl_addPoints (ms : List MetricResult) (acc : Dimension → ℚ)
    (d : Dimension) :
    (ms.foldl (fun a m => addPoints a m.dimension m.points) acc) d
      = acc d + ((ms.filter (fun m => m.dimension = d)).map MetricResult.points).sum := by
  induction ms generalizing acc with
  | nil => simp
  | cons m ms ih =>
    rw [List.foldl_cons, ih]
    by_cases h : m.dimension = d
    · rw [List.filter_cons_of_pos (by simp [h])]
      rw [show addPoints acc m.dimension m.points d = acc d + m.points by
        simp [addPoints, h.symm]]
      simp; ring
    · rw [List.filter_cons_of_neg (by simp [h])]
      rw [show addPoints acc m.dimension m.points d = acc d by
        simp [addPoints]; intro hd; exact absurd hd.symm h]

/-- The per-dimension score is the rounded sum of that dimension's
points. -/
theorem calculate_dimension_scores_eq (ms : List MetricResult) (d : Dimension) :
    calculate_dimension_scores ms d
      = pyRound (((ms.filter (fun m => m.dimension = d)).map MetricResult.points).sum) := by
  unfold calculate_dimension_scores rawDimensionScores
  rw [foldl_addPoints]
  simp

/-- A result built by `stepMetric` keeps the metric's id. -/
theorem stepMetric_id {getChecker : String → Option CheckerObj} {g : Graph}
    {ds dis : List Node} {m : Metric} {r : MetricResult}
    (h : stepMetric getChecker g ds dis m = some r) : r.id = m.id := by
  unfold stepMetric at h
  cases hc : getChecker m.id with
  | none => rw [hc] at h; exact absurd h (by simp)
  | some co =>
    rw [hc] at h
    simp only [Except.ok.injEq, Option.some.injEq] at h
    rw [← h]

/-- When the registry has a checker for the metric, `stepMetric` always
produces a result. -/
theorem stepMetric_isSome {getChecker : String → Option CheckerObj} {g : Graph}
    {ds dis : List Node} {m : Metric} (h : (getChecker m.id).isSome = true) :
    ∃ r, stepMetric getChecker g ds dis m = some r := by
  rcases Option.isSome_iff_exists.mp h with ⟨co, hc⟩
  unfold stepMetric
  rw [hc]
  exact ⟨_, rfl⟩

/-- Every result of the metric loop comes from `stepMetric` applied to one
of the listed metrics. -/
theorem calcAux_mem {getChecker : String → Option CheckerObj} {g : Graph}
    {model : String} {ds dis : List Node} :
    ∀ {flag : Bool} {metrics : List Metric} {r : MetricResult},
      r ∈ calcMetricsAux getChecker g model ds dis flag metrics →
      ∃ m, m ∈ metrics ∧ stepMetric getChecker g ds dis m = some r := by
  intro flag metrics
  induction metrics generalizing flag with
  | nil => intro r h; simp [calcMetricsAux] at h
  | cons m rest ih =>
    intro r h
    simp only [calcMetricsAux] at h
    split at h
    · split at h
      · obtain ⟨m', hm', hs⟩ := ih h
        exact ⟨m', List.mem_cons_of_mem _ hm', hs⟩
      · split at h
        · split at h
          · obtain ⟨m', hm', hs⟩ := ih h
            exact ⟨m', List.mem_cons_of_mem _ hm', hs⟩
          · rename_i heq
            rcases List.mem_cons.mp h with h | h
            · exact ⟨m, List.mem_cons_self _ _, by rw [heq, h]⟩
            · obtain ⟨m', hm', hs⟩ := ih h
              exact ⟨m', List.mem_cons_of_mem _ hm', hs⟩
        · obtain ⟨m', hm', hs⟩ := ih h
          exact ⟨m', List.mem_cons_of_mem _ hm', hs⟩
    · split at h
      · obtain ⟨m', hm', hs⟩ := ih h
        exact ⟨m', List.mem_cons_of_mem _ hm', hs⟩
      · rename_i heq
        rcases List.mem_cons.mp h with h | h
        · exact ⟨m, List.mem_cons_self _ _, by rw [heq, h]⟩
        · obtain ⟨m', hm', hs⟩ := ih h
          exact ⟨m', List.mem_cons_of_mem _ hm', hs⟩

/-- When every active metric has a registered checker, the loop produces
exactly one result per active metric. -/
theorem calcAux_length {getChecker : String → Option CheckerObj} {g : Graph}
    {model : String} {ds dis : List Node} :
    ∀ (flag : Bool) (metrics : List Metric),
      (∀ m ∈ activeMetricsAux model flag metrics, (getChecker m.id).isSome = true) →
      (calcMetricsAux getChecker g model ds dis flag metrics).length
        = (activeMetricsAux model flag metrics).length := by
  intro flag metrics
  induction metrics generalizing flag with
  | nil => intro _; simp [calcMetricsAux, activeMetricsAux]
  | cons m rest ih =>
    intro hall
    simp only [calcMetricsAux, activeMetricsAux]
    split
    · split
      · exact ih _ (by
          intro m' hm'
          exact hall m' (by simpa [activeMetricsAux, *] using hm'))
      · split
        · rename_i h1 h2 h3
          have hm : (getChecker m.id).isSome = true := by
            apply hall m
            simp only [activeMetricsAux, h1, if_true, h2, h3]
            simp
          obtain ⟨r, hr⟩ := @stepMetric_isSome _ g ds dis _ hm
          rw [hr]
          simp only [List.length_cons]
          rw [ih _ (by
            intro m' hm'
            apply hall m'
            simp only [activeMetricsAux, h1, if_true, h2, h3]
            simpa using Or.inr hm')]
        · exact ih _ (by
            intro m' hm'
            apply hall m'
            simpa [activeMetricsAux, *] using hm')
    · rename_i h1
      have hm : (getChecker m.id).isSome = true := by
        apply hall m
        simp [activeMetricsAux, h1]
      obtain ⟨r, hr⟩ := @stepMetric_isSome _ g ds dis _ hm
      rw [hr]
      simp only [List.length_cons]
      rw [ih _ (by
        intro m' hm'
        apply hall m'
        simp only [activeMetricsAux, h1]
        simpa using Or.inr hm')]

/-- Every active metric whose `stepMetric` succeeds contributes its result
to the loop's output. -/
theorem calcAux_exists {getChecker : String → Option CheckerObj} {g : Graph}
    {model : String} {ds dis : List Node} :
    ∀ (flag : Bool) (metrics : List Metric) (m : Metric),
      m ∈ activeMetricsAux model flag metrics →
      ∀ r, stepMetric getChecker g ds dis m = some r →
        r ∈ calcMetricsAux getChecker g model ds dis flag metrics := by
  intro flag metrics
  induction metrics generalizing flag with
  | nil => intro m hm; simp [activeMetricsAux] at hm
  | cons m0 rest ih =>
    intro m hm r hr
    simp only [activeMetricsAux] at hm
    simp only [calcMetricsAux]
    cases hcomp : pyEndsWith m0.id "_compliance" with
    | false =>
      rw [hcomp] at hm
      rw [if_neg Bool.false_ne_true] at hm
      rw [if_neg Bool.false_ne_true]
      rcases List.mem_cons.mp hm with he | hm'
      · subst he
        rw [hr]
        exact List.mem_cons_self _ _
      · cases hsm : stepMetric getChecker g ds dis m0 with
        | none => exact ih flag m hm' r hr
        | some r0 => exact List.mem_cons_of_mem _ (ih flag m hm' r hr)
    | true =>
      rw [hcomp] at hm
      rw [if_pos rfl] at hm
      rw [if_pos rfl]
      cases flag with
      | true =>
        rw [if_pos rfl] at hm
        rw [if_pos rfl]
        exact ih true m hm r hr
      | false =>
        rw [if_neg Bool.false_ne_true] at hm
        rw [if_neg Bool.false_ne_true]
        cases hdes : designated model m0.id with
        | false =>
          rw [hdes] at hm
          rw [if_neg Bool.false_ne_true] at hm
          rw [if_neg Bool.false_ne_true]
          exact ih false m hm r hr
        | true =>
          rw [hdes] at hm
          rw [if_pos rfl] at hm
          rw [if_pos rfl]
          rcases List.mem_cons.mp hm with he | hm'
          · subst he
            rw [hr]
            exact List.mem_cons_self _ _
          · cases hsm : stepMetric getChecker g ds dis m0 with
            | none => exact ih true m hm' r hr
            | some r0 => exact List.mem_cons_of_mem _ (ih true m hm' r hr)

/-- Every compliance-suffixed result the loop emits belongs to the
compliance metric designated for the model. -/
theorem calcAux_compliance_designated {getChecker : String → Option CheckerObj}
    {g : Graph} {model : String} {ds dis : List Node} :
    ∀ (flag : Bool) (metrics : List Metric) (r : MetricResult),
      r ∈ calcMetricsAux getChecker g model ds dis flag metrics →
      pyEndsWith r.id "_compliance" = true → designated model r.id = true := by
  intro flag metrics
  induction metrics generalizing flag with
  | nil => intro r h; simp [calcMetricsAux] at h
  | cons m0 rest ih =>
    intro r h hsuf
    simp only [calcMetricsAux] at h
    cases hcomp : pyEndsWith m0.id "_compliance" with
    | false =>
      rw [hcomp] at h
      rw [if_neg Bool.false_ne_true] at h
      cases hsm : stepMetric getChecker g ds dis m0 with
      | none => rw [hsm] at h; exact ih flag r h hsuf
      | some r0 =>
        rw [hsm] at h
        rcases List.mem_cons.mp h with he | h'
        · subst he
          rw [stepMetric_id hsm] at hsuf
          exact absurd hsuf (by rw [hcomp]; exact Bool.false_ne_true)
        · exact ih flag r h' hsuf
    | true =>
      rw [hcomp] at h
      rw [if_pos rfl] at h
      cases flag with
      | true =>
        rw [if_pos rfl] at h
        exact ih true r h hsuf
      | false =>
        rw [if_neg Bool.false_ne_true] at h
        cases hdes : designated model m0.id with
        | false =>
          rw [hdes] at h
          rw [if_neg Bool.false_ne_true] at h
          exact ih false r h hsuf
        | true =>
          rw [hdes] at h
          rw [if_pos rfl] at h
          cases hsm : stepMetric getChecker g ds dis m0 with
          | none => rw [hsm] at h; exact ih true r h hsuf
          | some r0 =>
            rw [hsm] at h
            rcases List.mem_cons.mp h with he | h'
            · subst he; rw [stepMetric_id hsm]; exact hdes
            · exact ih true r h' hsuf

/-- Once the `compliance_included` flag is set, the loop emits no further
compliance-suffixed result; from an unset flag it emits at most one. -/
theorem calcAux_compliance_count {getChecker : String → Option CheckerObj}
    {g : Graph} {model : String} {ds dis : List Node} :
    ∀ (flag : Bool) (metrics : List Metric),
      (calcMetricsAux getChecker g model ds dis flag metrics).countP
          (fun r => pyEndsWith r.id "_compliance")
        ≤ if flag then 0 else 1 := by
  intro flag metrics
  induction metrics generalizing flag with
  | nil => simp [calcMetricsAux]
  | cons m0 rest ih =>
    simp only [calcMetricsAux]
    cases hcomp : pyEndsWith m0.id "_compliance" with
    | false =>
      rw [if_neg Bool.false_ne_true]
      cases hsm : stepMetric getChecker g ds dis m0 with
      | none => exact ih flag
      | some r0 =>
        show (r0 :: calcMetricsAux getChecker g model ds dis flag rest).countP
            (fun r => pyEndsWith r.id "_compliance") ≤ if flag then 0 else 1
        rw [List.countP_cons]
        have hp : pyEndsWith r0.id "_compliance" = false := by
          rw [stepMetric_id hsm]; exact hcomp
        rw [hp]
        simpa using ih flag
    | true =>
      rw [if_pos rfl]
      cases flag with
      | true => rw [if_pos rfl]; exact ih true
      | false =>
        rw [if_neg Bool.false_ne_true]
        cases hdes : designated model m0.id with
        | false => rw [if_neg Bool.false_ne_true]; exact ih false
        | true =>
          rw [if_pos rfl]
          have h0 := ih true
          rw [if_pos rfl] at h0
          rw [if_neg Bool.false_ne_true]
          cases hsm : stepMetric getChecker g ds dis m0 with
          | none => exact le_trans h0 (by omega)
          | some r0 =>
            show (r0 :: calcMetricsAux getChecker g model ds dis true rest).countP
                (fun r => pyEndsWith r.id "_compliance") ≤ 1
            rw [List.countP_cons]
            have hb : (if pyEndsWith r0.id "_compliance" = true then 1 else 0) ≤ 1 := by
              split <;> omega
            calc List.countP (fun r => pyEndsWith r.id "_compliance")
                  (calcMetricsAux getChecker g model ds dis true rest)
                  + (if pyEndsWith r0.id "_compliance" = true then 1 else 0)
                ≤ 0 + 1 := Nat.add_le_add h0 hb
              _ = 1 := by norm_num

/-- Python's `len(resources_to_check) if resources_to_check else 1` is
`max 1 (length)`. -/
theorem ite_isEmpty_eq_max (l : List Node) :
    (if l.isEmpty then 1 else l.length) = max 1 l.length := by
  cases l with
  | nil => rfl
  | cons a t =>
    simp only [List.isEmpty_cons, if_neg Bool.false_ne_true, List.length_cons]
    omega

/-- When the metric's checker raises, the recorded result has a zero count
and the defaulted population `max(1, len(resources))`. -/
theorem stepMetric_fail {getChecker : String → Option CheckerObj} {g : Graph}
    {ds dis : List Node} {m : Metric} {r : MetricResult} {co : CheckerObj}
    (hc : getChecker m.id = some co)
    (hfail : co.run g (resolveResources m.id co.className ds dis) = .error ())
    (h : stepMetric getChecker g ds dis m = some r) :
    r.count = 0
      ∧ r.population = max 1 (resolveResources m.id co.className ds dis).length := by
  unfold stepMetric at h
  rw [hc] at h
  simp only [hfail] at h
  simp only [Option.some.injEq] at h
  rw [← h]
  exact ⟨rfl, ite_isEmpty_eq_max _⟩

/-- The helper `shaclCheckRun` only ever returns `(1, 1)` or `(0, 1)`. -/
theorem shaclCheckRun_cases (env : Env) (files : List String)
    (fallback : Option String) :
    shaclCheckRun env files fallback = (1, 1)
      ∨ shaclCheckRun env files fallback = (0, 1) := by
  unfold shaclCheckRun
  split
  · right; rfl
  · split
    · split
      · left; rfl
      · right; rfl
    · right; rfl

/-- The accumulating loop of the multi-type checker preserves
`count ≤ total`. -/
theorem foldl_multi_le (g : Graph) (prop : String) :
    ∀ (ts : List Node) (acc : Nat × Nat), acc.1 ≤ acc.2 →
      (ts.foldl (fun acc etype =>
        let entities := subjectsWith g rdfType etype
        (acc.1 + entities.countP (fun e => hasProp g e prop),
         acc.2 + entities.length)) acc).1
        ≤ (ts.foldl (fun acc etype =>
        let entities := subjectsWith g rdfType etype
        (acc.1 + entities.countP (fun e => hasProp g e prop),
         acc.2 + entities.length)) acc).2 := by
  intro ts
  induction ts with
  | nil => intro acc h; exact h
  | cons t ts ih =>
    intro acc h
    exact ih _ (Nat.add_le_add h (List.countP_le_length _))

/-- Every checker variant returns `count ≤ population`. -/
theorem check_count_le (ck : Checker) (env : Env) (g : Graph) (rs : List Node)
    (ctx : Option Ctx) :
    (ck.check env g rs ctx).1 ≤ (ck.check env g rs ctx).2 := by
  cases ck with
  | property prop =>
    simp only [Checker.check]
    split
    · exact Nat.le_refl 0
    · exact List.countP_le_length _
  | entityTypeProperty prop etype =>
    simp only [Checker.check]
    split
    · exact Nat.le_refl 0
    · exact List.countP_le_length _
  | multipleEntityTypesProperty prop etypes =>
    simp only [Checker.check]
    exact foldl_multi_le g prop etypes (0, 0) (Nat.le_refl 0)
  | entityTypeURLStatus prop etype =>
    simp only [Checker.check]
    split <;> split <;>
      first
        | exact Nat.le_refl 0
        | exact List.countP_le_length _
  | vocabularyCompliance props allowed =>
    simp only [Checker.check]
    exact List.countP_le_length _
  | vocabularyLabelCompliance props allowedLabels labelProp =>
    simp only [Checker.check]
    exact List.countP_le_length _
  | shaclCompliance files fallback =>
    rcases shaclCheckRun_cases env files fallback with h | h <;>
      simp only [Checker.check, h] <;> omega
  | multiLevelShaclCompliance filesByLevel fallback level =>
    simp only [Checker.check]
    rcases shaclCheckRun_cases env ((filesByLevel.lookup
        (match ctx with | some c => c.shaclLevel | none => level)).getD [])
        fallback with h | h <;> rw [h] <;> omega

/-- Bounds of the guarded percentage `count/population if population > 0
else 0`. -/
theorem pct_bounds (c p : Nat) (h : c ≤ p ∨ c = 0) :
    0 ≤ (if p > 0 then (c : ℚ) / p else 0)
      ∧ (if p > 0 then (c : ℚ) / p else 0) ≤ 1 := by
  split
  · rename_i hp
    have hp' : (0 : ℚ) < p := by exact_mod_cast hp
    constructor
    · positivity
    · rw [div_le_one hp']
      rcases h with h | h
      · exact_mod_cast h
      · rw [h]; exact_mod_cast Nat.zero_le p
  · exact ⟨le_refl 0, by norm_num⟩

/-- Every result `stepMetric` builds (also on the exception-fallback path)
has a percentage in `[0, 1]` and points equal to percentage times weight,
provided the checker returns `count ≤ population` whenever it succeeds. -/
theorem stepMetric_invariant {getChecker : String → Option CheckerObj} {g : Graph}
    {ds dis : List Node} {m : Metric} {r : MetricResult}
    (hb : ∀ id co, getChecker id = some co →
      ∀ rs res, co.run g rs = .ok res → res.1 ≤ res.2)
    (h : stepMetric getChecker g ds dis m = some r) :
    0 ≤ r.percentage ∧ r.percentage ≤ 1
      ∧ r.points = r.percentage * (r.weight : ℚ) := by
  cases hc : getChecker m.id with
  | none => rw [stepMetric, hc] at h; exact absurd h (by simp)
  | some co =>
    simp only [stepMetric, hc, Option.some.injEq] at h
    cases hrun : co.run g (resolveResources m.id co.className ds dis) with
    | error e =>
      rw [hrun] at h
      rw [← h]
      exact ⟨(pct_bounds _ _ (Or.inr rfl)).1, (pct_bounds _ _ (Or.inr rfl)).2, rfl⟩
    | ok res =>
      rw [hrun] at h
      rw [← h]
      have hle : res.1 ≤ res.2 := hb m.id co hc _ res hrun
      exact ⟨(pct_bounds _ _ (Or.inl hle)).1, (pct_bounds _ _ (Or.inl hle)).2, rfl⟩

/-- C1: in every assembled report each dimension's score is the sum of
that dimension's result points rounded once (Python `round`, a
nearest-integer rounding breaking ties to the even integer), and the
report's totalScore is the sum of the five already-rounded dimension
integers — rounding happens per dimension before summation. -/
theorem mqs_c1 (env : Env) (cenv : ContentEnv) (content ctype model : String)
    (lvl : Nat) (report : QualityReport)
    (h : validate_metadata_from_content env cenv content ctype model lvl = .ok report) :
    (∀ d, report.dimensions d
        = pyRound (((report.metrics.filter (fun m => m.dimension = d)).map
            MetricResult.points).sum))
    ∧ report.totalScore = sumDimensionValues report.dimensions
    ∧ ∀ q : ℚ, |q - (pyRound q : ℚ)| ≤ 1 / 2
        ∧ (|q - (pyRound q : ℚ)| = 1 / 2 → 2 ∣ pyRound q) := by
  unfold validate_metadata_from_content at h
  cases hload : load_graph_from_content cenv content ctype with
  | error e => rw [hload] at h; exact absurd h (by simp)
  | ok g =>
    rw [hload] at h
    simp only [Except.ok.injEq] at h
    subst h
    exact ⟨fun d => calculate_dimension_scores_eq _ d, rfl, pyRound_dist⟩

theorem mqs_c1_witness :
    ∃ report, reportRunW = .ok report
      ∧ report.totalScore = sumDimensionValues report.dimensions := by
  cases hh : reportRunW with
  | error e =>
    have hOk : reportRunW.isOk = true := by decide
    rw [hh] at hOk
    simp [Except.isOk, Except.toBool] at hOk
  | ok r =>
    exact ⟨r, rfl, (mqs_c1 envW cenvW "c" "text/turtle" "dcat_ap_es" 2 r hh).2.1⟩

/-- C2: when every active metric has a registered checker and exactly one
checker raises, the loop records `(count = 0, population = max(1, size of
the candidate resource set))` for that metric, continues with the rest,
and the result list still has one entry per active metric. -/
theorem mqs_c2 (getChecker : String → Option CheckerObj) (g : Graph)
    (model : String) (metrics : List Metric) (mf : Metric) (cf : CheckerObj)
    (hAll : ∀ m ∈ activeMetrics model metrics, (getChecker m.id).isSome = true)
    (hmf : mf ∈ activeMetrics model metrics)
    (hcf : getChecker mf.id = some cf)
    (hfail : cf.run g (resolveResources mf.id cf.className
        (subjectsWith g rdfType dcatDataset)
        (subjectsWith g rdfType dcatDistribution)) = .error ())
    (hothers : ∀ m ∈ activeMetrics model metrics, m.id ≠ mf.id →
      ∀ c, getChecker m.id = some c →
        (c.run g (resolveResources m.id c.className
            (subjectsWith g rdfType dcatDataset)
            (subjectsWith g rdfType dcatDistribution))).isOk = true) :
    (calculate_metrics getChecker g model metrics).length
        = (activeMetrics model metrics).length
    ∧ (∃ r ∈ calculate_metrics getChecker g model metrics, r.id = mf.id)
    ∧ ∀ r ∈ calculate_metrics getChecker g model metrics, r.id = mf.id →
        r.count = 0
        ∧ r.population = max 1 (resolveResources mf.id cf.className
            (subjectsWith g rdfType dcatDataset)
            (subjectsWith g rdfType dcatDistribution)).length := by
  refine ⟨calcAux_length false metrics hAll, ?_, ?_⟩
  · obtain ⟨r, hr⟩ := @stepMetric_isSome getChecker g
      (subjectsWith g rdfType dcatDataset)
      (subjectsWith g rdfType dcatDistribution) mf (hAll mf hmf)
    exact ⟨r, calcAux_exists false metrics mf hmf r hr, stepMetric_id hr⟩
  · intro r hr hid
    obtain ⟨m, _, hsm⟩ := calcAux_mem hr
    have hmid : m.id = mf.id := by rw [← stepMetric_id hsm, hid]
    have hc' : getChecker m.id = some cf := by rw [hmid]; exact hcf
    have hfail' : cf.run g (resolveResources m.id cf.className
        (subjectsWith g rdfType dcatDataset)
        (subjectsWith g rdfType dcatDistribution)) = .error () := by
      rw [hmid]; exact hfail
    obtain ⟨h1, h2⟩ := stepMetric_fail hc' hfail' hsm
    rw [hmid] at h2
    exact ⟨h1, h2⟩

theorem mqs_c2_witness :
    (calculate_metrics getCheckerW2 [] "dcat_ap_es" metricsW2).length
        = (activeMetrics "dcat_ap_es" metricsW2).length
    ∧ (∃ r ∈ calculate_metrics getCheckerW2 [] "dcat_ap_es" metricsW2, r.id = mfW.id)
    ∧ ∀ r ∈ calculate_metrics getCheckerW2 [] "dcat_ap_es" metricsW2, r.id = mfW.id →
        r.count = 0
        ∧ r.population = max 1 (resolveResources mfW.id failObjW.className
            (subjectsWith [] rdfType dcatDataset)
            (subjectsWith [] rdfType dcatDistribution)).length := by
  refine mqs_c2 getCheckerW2 [] "dcat_ap_es" metricsW2 mfW failObjW
    (by decide) (by decide) rfl rfl ?_
  intro m hm hne c hc
  have hact : activeMetrics "dcat_ap_es" metricsW2 = metricsW2 := by decide
  rw [hact] at hm
  rcases List.mem_cons.mp hm with he | hm'
  · exact absurd (by rw [he]; rfl) hne
  · rcases List.mem_cons.mp hm' with he | hm''
    · have hco : c = okObjW := by
        rw [he] at hc
        simpa [getCheckerW2] using hc.symm
      rw [hco, he]
      rfl
    · simp at hm''

/-- C3: every checker variant returns `count ≤ population`, and
consequently every result of an evaluation whose registered checkers
satisfy that bound whenever they succeed — including results produced by
the exception-fallback path — has `0 ≤ percentage ≤ 1` and
`points = percentage × weight` exactly. -/
theorem mqs_c3 :
    (∀ (ck : Checker) (env : Env) (g : Graph) (rs : List Node) (ctx : Option Ctx),
        (ck.check env g rs ctx).1 ≤ (ck.check env g rs ctx).2)
    ∧ ∀ (getChecker : String → Option CheckerObj) (g : Graph) (model : String)
        (metrics : List Metric),
        (∀ id co, getChecker id = some co →
          ∀ rs res, co.run g rs = .ok res → res.1 ≤ res.2) →
        ∀ r ∈ calculate_metrics getChecker g model metrics,
          0 ≤ r.percentage ∧ r.percentage ≤ 1
            ∧ r.points = r.percentage * (r.weight : ℚ) := by
  refine ⟨check_count_le, ?_⟩
  intro getChecker g model metrics hb r hr
  obtain ⟨m, _, hsm⟩ := calcAux_mem hr
  exact stepMetric_invariant hb hsm

theorem mqs_c3_witness :
    0 ≤ rC3.percentage ∧ rC3.percentage ≤ 1
      ∧ rC3.points = rC3.percentage * (rC3.weight : ℚ) := by
  refine mqs_c3.2 getCheckerW3 [] "dcat_ap_es" [⟨"m_b", .accessibility, 20⟩]
    ?_ rC3 (List.head_mem _)
  intro id co hc rs res hrun
  have hco : co = okObjW := by simpa [getCheckerW3] using hc.symm
  rw [hco] at hrun
  have hres : res = (1, 2) := by simpa [okObjW] using hrun.symm
  rw [hres]
  decide

/-- C4: for every registry, graph, model and metric list, every
compliance-suffixed result entry belongs to the compliance metric
designated for the model, at most one compliance entry appears, and in
particular an nti_risp evaluation never emits the DCAT-AP or DCAT-AP-ES
compliance metric. -/
theorem mqs_c4 (getChecker : String → Option CheckerObj) (g : Graph)
    (model : String) (metrics : List Metric) :
    (∀ r ∈ calculate_metrics getChecker g model metrics,
        pyEndsWith r.id "_compliance" = true → designated model r.id = true)
    ∧ (calculate_metrics getChecker g model metrics).countP
        (fun r => pyEndsWith r.id "_compliance") ≤ 1
    ∧ (model = "nti_risp" →
        ∀ r ∈ calculate_metrics getChecker g model metrics,
          r.id ≠ "dcat_ap_compliance" ∧ r.id ≠ "dcat_ap_es_compliance") := by
  refine ⟨fun r hr => calcAux_compliance_designated false metrics r hr, ?_, ?_⟩
  · have h := @calcAux_compliance_count getChecker g model
      (subjectsWith g rdfType dcatDataset)
      (subjectsWith g rdfType dcatDistribution) false metrics
    simpa using h
  · intro hm r hr
    have hd := @calcAux_compliance_designated _ _ model _ _ false metrics r hr
    constructor
    · intro he
      have h1 : designated model r.id = true := hd (by rw [he]; decide)
      rw [hm, he] at h1
      exact absurd h1 (by decide)
    · intro he
      have h1 : designated model r.id = true := hd (by rw [he]; decide)
      rw [hm, he] at h1
      exact absurd h1 (by decide)

theorem mqs_c4_witness :
    rC4.id ≠ "dcat_ap_compliance" ∧ rC4.id ≠ "dcat_ap_es_compliance" :=
  (mqs_c4 getCheckerW3 [] "nti_risp" [⟨"dcat_keyword", .findability, 30⟩]).2.2
    rfl rC4 (List.head_mem _)

/-- C5 counterexample: resolving an unrecognized profile name does not
fail at setup — the metric registration of `register_standard_metrics`
silently proceeds with the default (dcat_ap_es) metric set, and
`determine_rating` proceeds with the default rating thresholds, instead of
raising a configuration error. -/
theorem mqs_c5_counterexample :
    register_standard_metrics "not_a_profile" = DEFAULT_METRICS
    ∧ DEFAULT_METRICS = (METRICS_BY_PROFILE "dcat_ap_es").getD []
    ∧ DEFAULT_METRICS ≠ []
    ∧ determine_rating 351 "not_a_profile" = Rating.excellent
    ∧ determine_rating 351 "not_a_profile" = determine_rating 351 "dcat_ap_es" := by
  exact ⟨rfl, rfl, by decide, by decide, by decide⟩

/-- C5 amended: for every profile name other than the three recognized
ones, profile resolution does not fail: the registered metric set is the
default `DEFAULT_METRICS` (the dcat_ap_es set) and rating determination
uses the default (dcat_ap_es) thresholds. -/
theorem mqs_c5_amended (p : String)
    (h1 : p ≠ "dcat_ap") (h2 : p ≠ "dcat_ap_es") (h3 : p ≠ "nti_risp") :
    register_standard_metrics p = DEFAULT_METRICS
    ∧ ∀ t : ℤ, determine_rating t p = determine_rating t "dcat_ap_es" := by
  have hm : METRICS_BY_PROFILE p = none := by
    unfold METRICS_BY_PROFILE
    rw [if_neg h1, if_neg h2, if_neg h3]
  have ht : RATING_THRESHOLDS_BY_PROFILE p = none := by
    unfold RATING_THRESHOLDS_BY_PROFILE
    rw [if_neg h1, if_neg h2, if_neg h3]
  constructor
  · unfold register_standard_metrics
    rw [hm]
    rfl
  · intro t
    unfold determine_rating
    rw [ht]
    rfl

theorem mqs_c5_witness :
    register_standard_metrics "bogus" = DEFAULT_METRICS
    ∧ determine_rating 200 "bogus" = determine_rating 200 "dcat_ap_es" :=
  ⟨(mqs_c5_amended "bogus" (by decide) (by decide) (by decide)).1,
   (mqs_c5_amended "bogus" (by decide) (by decide) (by decide)).2 200⟩

/-- C6 counterexample: the candidate resource universe is selected by
string-matching the metric id's prefix and by substring-testing the
checker's class name — two metrics differing only in their id prefix (or
only in their checker's class) receive different resource universes, so
the selection is not read from registration-time metadata. -/
theorem mqs_c6_counterexample :
    (resolveResources "dcat_issued" "MultipleEntityTypesPropertyChecker"
        [nodeD] [nodeR]
      ≠ resolveResources "dct_issued" "MultipleEntityTypesPropertyChecker"
        [nodeD] [nodeR])
    ∧ (resolveResources "dct_format" "MultipleEntityTypesPropertyChecker"
        [nodeD] [nodeR]
      ≠ resolveResources "dct_format" "VocabularyComplianceChecker"
        [nodeD] [nodeR]) := by
  exact ⟨by decide, by decide⟩

/-- C6 amended: the scoring engine selects the candidate universe by
string-matching the metric id's prefix and substring-testing the checker
class name; since no checker class name contains `Dataset`, every
`dcat_`-prefixed metric receives the distributions, a `dct_`-prefixed
metric receives datasets ++ distributions exactly for the multi-entity
checker and the distributions otherwise, and any other id receives
datasets ++ distributions. -/
theorem mqs_c6_amended (ck : Checker) (id : String) (ds dis : List Node) :
    containsSub ck.className "Dataset" = false
    ∧ (pyStartsWith id "dcat_" = true →
        resolveResources id ck.className ds dis = dis)
    ∧ (pyStartsWith id "dcat_" = false → pyStartsWith id "dct_" = true →
        resolveResources id ck.className ds dis
          = (match ck with
             | .multipleEntityTypesProperty _ _ => ds ++ dis
             | _ => dis))
    ∧ (pyStartsWith id "dcat_" = false → pyStartsWith id "dct_" = false →
        resolveResources id ck.className ds dis = ds ++ dis) := by
  have hda : containsSub ck.className "Dataset" = false := by
    cases ck <;> simp only [Checker.className] <;> decide
  have hmu : containsSub ck.className "MultipleEntityTypes"
      = (match ck with
         | .multipleEntityTypesProperty _ _ => true
         | _ => false) := by
    cases ck <;> simp only [Checker.className] <;> decide
  refine ⟨hda, ?_, ?_, ?_⟩
  · intro h
    unfold resolveResources
    rw [h, if_pos rfl, hda, if_neg Bool.false_ne_true]
  · intro h1 h2
    unfold resolveResources
    rw [h1, if_neg Bool.false_ne_true, h2, if_pos rfl, hmu, hda]
    cases ck <;>
      first
        | rw [if_pos rfl]
        | rw [if_neg Bool.false_ne_true, if_neg Bool.false_ne_true]
  · intro h1 h2
    unfold resolveResources
    rw [h1, if_neg Bool.false_ne_true, h2, if_neg Bool.false_ne_true]

theorem mqs_c6_witness :
    containsSub (Checker.property "p").className "Dataset" = false
    ∧ resolveResources "dcat_keyword" (Checker.property "p").className
        [nodeD] [nodeR] = [nodeR] :=
  ⟨(mqs_c6_amended (.property "p") "dcat_keyword" [nodeD] [nodeR]).1,
   (mqs_c6_amended (.property "p") "dcat_keyword" [nodeD] [nodeR]).2.1 (by decide)⟩

/-- C7: for every environment, shape file set, fallback location, graph,
resource list and context, the SHACL compliance checker never raises: its
check is a total function whose value is `(1, 1)` exactly when the shapes
loaded and the validation engine reported conformance, and `(0, 1)` in
every other situation (missing or unparsable shapes, failing fallback,
engine exception, non-conformance). -/
theorem mqs_c7 (env : Env) (files : List String) (fb : Option String)
    (g : Graph) (rs : List Node) (ctx : Option Ctx) :
    ((Checker.shaclCompliance files fb).check env g rs ctx = (1, 1)
      ∨ (Checker.shaclCompliance files fb).check env g rs ctx = (0, 1))
    ∧ ((Checker.shaclCompliance files fb).check env g rs ctx = (1, 1)
      ↔ shapesLoaded env files fb = true ∧ env.validateConforms = .ok true) := by
  have hc : (Checker.shaclCompliance files fb).check env g rs ctx
      = shaclCheckRun env files fb := rfl
  rw [hc]
  refine ⟨shaclCheckRun_cases env files fb, ?_⟩
  unfold shaclCheckRun
  cases hl : shapesLoaded env files fb with
  | false => simp
  | true =>
    cases hv : env.validateConforms with
    | error e => simp [hv]
    | ok b => cases b <;> simp [hv]

/-- C8: the typed-property checker ignores the caller's candidate list
(and the context): it recomputes the full typed subject set from the
graph, counting the typed subjects carrying the property over the size of
the full typed set. -/
theorem mqs_c8 (prop : String) (etype : Node) (env : Env) (g : Graph)
    (r1 r2 : List Node) (ctx1 ctx2 : Option Ctx) :
    (Checker.entityTypeProperty prop etype).check env g r1 ctx1
      = (Checker.entityTypeProperty prop etype).check env g r2 ctx2
    ∧ (Checker.entityTypeProperty prop etype).check env g r1 ctx1
      = ((subjectsWith g rdfType etype).countP (fun e => hasProp g e prop),
         (subjectsWith g rdfType etype).length) := by
  refine ⟨rfl, ?_⟩
  simp only [Checker.check]
  split
  · rename_i h
    have hl : subjectsWith g rdfType etype = [] := List.length_eq_zero.mp h
    rw [hl]
    rfl
  · rfl

/-- C9: on a graph with no Dataset-typed subject, every metric whose
registered standard checker is a Dataset-scoped typed-property checker
completes without raising and reports count 0, population 0, percentage 0
and points 0 (the percentage division is guarded on a zero population). -/
theorem mqs_c9 (env : Env) (ctx : Option Ctx) (g : Graph)
    (model checkerProfile : String) (registeredIds : List String)
    (metrics : List Metric) (prop : String)
    (hno : subjectsWith g rdfType dcatDataset = []) :
    ∀ r ∈ calculate_metrics
        (standardGetChecker env ctx checkerProfile registeredIds) g model metrics,
      registeredCheckers env checkerProfile registeredIds r.id
          = some (.entityTypeProperty prop dcatDataset) →
        r.count = 0 ∧ r.population = 0 ∧ r.percentage = 0 ∧ r.points = 0 := by
  intro r hr hreg
  obtain ⟨m, _, hsm⟩ := calcAux_mem hr
  have hid : r.id = m.id := stepMetric_id hsm
  rw [hid] at hreg
  have hgc : standardGetChecker env ctx checkerProfile registeredIds m.id
      = some ⟨(Checker.entityTypeProperty prop dcatDataset).className,
          fun g' rs => .ok ((Checker.entityTypeProperty prop dcatDataset).check
            env g' rs ctx)⟩ := by
    unfold standardGetChecker
    rw [hreg]
    rfl
  have hchk : ∀ rs, (Checker.entityTypeProperty prop dcatDataset).check
      env g rs ctx = (0, 0) := by
    intro rs
    simp only [Checker.check, hno]
    rfl
  simp only [stepMetric, hgc, Option.some.injEq, hchk] at hsm
  rw [← hsm]
  refine ⟨rfl, rfl, rfl, ?_⟩
  show (if (0 : Nat) > 0 then ((0 : Nat) : ℚ) / ((0 : Nat) : ℚ) else 0)
      * (m.weight : ℚ) = 0
  norm_num

theorem mqs_c9_witness :
    rC9.count = 0 ∧ rC9.population = 0 ∧ rC9.percentage = 0 ∧ rC9.points = 0 :=
  mqs_c9 envW (some ⟨2, "dcat_ap_es"⟩) [] "dcat_ap_es" "dcat_ap_es"
    ["dcat_keyword"] [⟨"dcat_keyword", .findability, 30⟩] "dcat:keyword" rfl
    rC9 (List.head_mem _) (by decide)

/-- C10: validating directly supplied content produces no report and
fails whenever the content parses into a graph with zero triples, and
whenever the declared content type is not one of the four supported MIME
types. -/
theorem mqs_c10 (env : Env) (cenv : ContentEnv) (content ctype model : String)
    (lvl : Nat) :
    (∀ fmt, fmtForContentType ctype = some fmt →
        cenv.parse fmt content = .ok [] →
        ∃ e, validate_metadata_from_content env cenv content ctype model lvl
          = .error e)
    ∧ ((ctype ≠ "application/rdf+xml" ∧ ctype ≠ "text/turtle"
        ∧ ctype ≠ "application/ld+json" ∧ ctype ≠ "application/n-triples") →
        ∃ e, validate_metadata_from_content env cenv content ctype model lvl
          = .error e) := by
  constructor
  · intro fmt hf hp
    unfold validate_metadata_from_content load_graph_from_content
    rw [hf]
    simp only [hp]
    exact ⟨_, rfl⟩
  · rintro ⟨h1, h2, h3, h4⟩
    have hf : fmtForContentType ctype = none := by
      unfold fmtForContentType
      rw [if_neg h1, if_neg h2, if_neg h3, if_neg h4]
    unfold validate_metadata_from_content load_graph_from_content
    rw [hf]
    exact ⟨_, rfl⟩

theorem mqs_c10_witness :
    (∃ e, validate_metadata_from_content envW cenvW "x" "text/csv"
        "dcat_ap_es" 2 = .error e)
    ∧ ∃ e, validate_metadata_from_content envW cenvE "x" "text/turtle"
        "dcat_ap_es" 2 = .error e :=
  ⟨(mqs_c10 envW cenvW "x" "text/csv" "dcat_ap_es" 2).2
      ⟨by decide, by decide, by decide, by decide⟩,
   (mqs_c10 envW cenvE "x" "text/turtle" "dcat_ap_es" 2).1 "turtle" rfl rfl⟩

end MQS
